import Mathlib

/-!
# Verification of the miner actor (`actor/builtin/miner/miner.go`)

A shallow embedding of the go-filecoin miner actor.  Machine integers
(`uint64`, `uint8`) are modelled as `Nat`, `math/big` integers as `Int`,
byte slices as `List Nat`, the Go `map[string]types.Commitments` as an
association list keyed by the decimal string of the sector id (the source
stringifies the key with `strconv.FormatUint(sectorID, 10)`).

The VM context (`exec.VMContext`) is modelled as a record carrying the
message sender, the chain height, the outcome of the fixed 100-gas charge,
the outcome of the single outbound `Send` to the storage-market actor, and
the verdict of the injected PoSt verifier.  Each exported method becomes a
pure function from context, state and arguments to a result record holding
the state that ends up committed, the returned value, the returned code,
the returned error, and whether the storage-market send was issued.
`actor.WithState` commits the mutated state only when the callback returns
no error; on error the pre-call state is kept (rollback).
-/

namespace Miner

/-- `MaximumPublicKeySize` is a limit on how big a public key can be. -/
def MaximumPublicKeySize : Nat := 100

/-- `PoStProofLength` is the length of a single proof-of-spacetime proof (in bytes). -/
def PoStProofLength : Nat := 192

/-- `ProvingPeriodBlocks` defines how long a proving period is. -/
def ProvingPeriodBlocks : Nat := 20000

/-- `proofs.CommitmentBytesLen`: the byte length of CommD/CommR/CommRStar
commitments (the `proofs` package is outside the actor; the spec fixes
`COMMITMENT_LENGTH` at 32 bytes). -/
def CommitmentBytesLen : Nat := 32

/-- Error code: public key too big. -/
def ErrPublicKeyTooBig : Nat := 33

/-- Error code: invalid sector id. -/
def ErrInvalidSector : Nat := 34

/-- Error code: the sector has already been committed. -/
def ErrSectorCommitted : Nat := 35

/-- Error code: the call to the storage market failed. -/
def ErrStoragemarketCallFailed : Nat := 36

/-- Error code: unauthorized caller. -/
def ErrCallerUnauthorized : Nat := 37

/-- Error code: insufficient pledge. -/
def ErrInsufficientPledge : Nat := 38

/-- Error code: the passed-in PoSt was invalid. -/
def ErrInvalidPoSt : Nat := 39

/-- Modelled from the spec: `exec.ErrInsufficientGas` is a VM-defined exit
code (the `exec` package is not part of the actor source); its concrete
value is opaque to this core, so it is fixed here at an arbitrary value
distinct from every code in the actor's error table. -/
def ErrInsufficientGas : Nat := 254

/-- The errors a method invocation can surface, mirroring `vm/errors`:
coded revert errors (`NewCodedRevertErrorf`), uncoded revert errors
(`NewRevertError` / `RevertErrorWrap`), fault errors, the gas-refusal
error, and transport errors propagated from the VM send machinery. -/
inductive MErr where
  | coded : Nat → MErr
  | revert : MErr
  | fault : MErr
  | insufficientGas : MErr
  | transport : Nat → MErr
deriving DecidableEq, Repr

/-- Modelled from the spec: `errors.CodeError` (package `vm/errors`, outside
the actor source) maps an error to the exit code the message observes: a
coded revert error carries its own code, an uncoded revert or fault error
maps to the generic revert code 1, gas refusal to the VM-defined
insufficient-gas code, and a transport error keeps its native code. -/
def CodeError : MErr → Nat
  | .coded c => c
  | .revert => 1
  | .fault => 1
  | .insufficientGas => ErrInsufficientGas
  | .transport c => c

/-- An ask: a price advertisement by the miner.  `Price` is an `AttoFIL`
(arbitrary-precision), `Expiry` an absolute block height, `ID` a
`big.Int`. -/
structure Ask where
  price : Int
  expiry : Nat
  id : Int
deriving DecidableEq, Repr

/-- A `types.Commitments` record: the `(CommD, CommR, CommRStar)` tuple,
each a 32-byte array modelled as a byte list. -/
structure Commitments where
  commD : List Nat
  commR : List Nat
  commRStar : List Nat
deriving DecidableEq, Repr

/-- The miner actor's persisted `State`. -/
structure State where
  owner : Nat
  peerID : String
  publicKey : List Nat
  pledgeSectors : Int
  collateral : Int
  asks : List Ask
  nextAskID : Int
  sectorCommitments : List (String × Commitments)
  lastUsedSectorID : Nat
  provingPeriodStart : Option Nat
  lastPoSt : Option Nat
  power : Int
deriving DecidableEq, Repr

/-- `NewState` creates a miner state struct.  Fields the Go constructor
leaves at their zero value (`Asks`, `LastUsedSectorID`,
`ProvingPeriodStart`, `LastPoSt`) are the empty list, `0`, `none`,
`none`. -/
def NewState (owner : Nat) (key : List Nat) (pledge : Int) (pid : String)
    (collateral : Int) : State :=
  { owner := owner
    peerID := pid
    publicKey := key
    pledgeSectors := pledge
    collateral := collateral
    asks := []
    nextAskID := 0
    sectorCommitments := []
    lastUsedSectorID := 0
    provingPeriodStart := none
    lastPoSt := none
    power := 0 }

/-- The slice of the VM context a single method invocation observes:
message sender, chain height, whether the 100-gas `Charge` succeeds, the
outcome of the outbound `Send` to the storage-market actor (an error, or
the peer actor's exit code), and the verdict of the injected PoSt verifier
(an error, or `IsValid`; the verifier is the external `proofs` capability,
so only its verdict is modelled — the collected CommRs it is handed come
out of a Go map whose iteration order is unspecified). -/
structure Ctx where
  msgFrom : Nat
  blockHeight : Nat
  gasOk : Bool
  send : Except MErr Nat
  verify : Except Unit Bool

/-- The observable outcome of one method invocation: the state that ends up
committed (the pre-call state when the invocation errs — `WithState`
rollback), the method's returned value, its returned code, its returned
error, and whether the storage-market `Send` was issued. -/
structure MRes (α : Type) where
  state : State
  ret : Option α
  code : Nat
  err : Option MErr
  sent : Bool
deriving DecidableEq, Repr

/-- Modelled from the spec: the exit code the enclosing message observes.
The VM derives it from the returned error when one is present (§7: every
error aborts the method and its code becomes the exit code) and from the
returned code otherwise. -/
def MRes.exit {α : Type} (r : MRes α) : Nat :=
  match r.err with
  | none => r.code
  | some e => CodeError e

/-- First-match lookup in the stringified-sector-id association list,
mirroring Go map indexing (keys are never duplicated: insertion is guarded
by this very lookup). -/
def alistLookup (l : List (String × Commitments)) (k : String) :
    Option Commitments :=
  (l.find? (fun p => p.1 = k)).map (fun p => p.2)

/-- Go's `copy(dst[:], src)` into a zero-initialised fixed array of length
`n`: the first `min n src.length` bytes come from `src`, the rest stay
zero. -/
def copyFixed (n : Nat) (src : List Nat) : List Nat :=
  src.take n ++ List.replicate (n - src.length) 0

/-- `AddAsk` adds an ask to this miner's ask list: charge gas, check the
caller, assign `id = NextAskID` and post-increment, drop every ask whose
expiry is not strictly above the current height, reject an expiry delta
that does not fit `uint64`, and append the new ask with absolute expiry
`blockHeight + delta`. -/
def addAsk (ctx : Ctx) (st : State) (price : Int) (expiry : Int) :
    MRes Int :=
  if ctx.gasOk then
    if ctx.msgFrom = st.owner then
      let id := st.nextAskID
      let pruned := st.asks.filter (fun a => ctx.blockHeight < a.expiry)
      if 0 ≤ expiry ∧ expiry < 2 ^ 64 then
        let newAsk : Ask :=
          { price := price, expiry := ctx.blockHeight + expiry.toNat, id := id }
        { state := { st with nextAskID := st.nextAskID + 1,
                             asks := pruned ++ [newAsk] }
          ret := some id, code := 0, err := none, sent := false }
      else
        { state := st, ret := none, code := CodeError .revert,
          err := some .revert, sent := false }
    else
      { state := st, ret := none,
        code := CodeError (.coded ErrCallerUnauthorized),
        err := some (.coded ErrCallerUnauthorized), sent := false }
  else
    { state := st, ret := none, code := ErrInsufficientGas,
      err := some .insufficientGas, sent := false }

/-- `UpdatePeerID` updates the peer id the miner operates under: charge
gas, check the caller, overwrite `PeerID`. -/
def updatePeerID (ctx : Ctx) (st : State) (pid : String) : MRes Unit :=
  if ctx.gasOk then
    if ctx.msgFrom = st.owner then
      { state := { st with peerID := pid }, ret := none, code := 0,
        err := none, sent := false }
    else
      { state := st, ret := none,
        code := CodeError (.coded ErrCallerUnauthorized),
        err := some (.coded ErrCallerUnauthorized), sent := false }
  else
    { state := st, ret := none, code := ErrInsufficientGas,
      err := some .insufficientGas, sent := false }

/-- `CommitSector` adds a commitment for a not-yet-committed sector:
charge gas, reject a `commD`/`commR`/`commRStar` that is not exactly 32
bytes (these checks run before the state callback, returning code 0 with
an uncoded revert error), stringify the sector id, check the caller,
reject a duplicate sector, start the proving period at the current height
when the pre-call power is zero, bump power, record the commitments,
record the last used sector id, then `Send(+1)` to the storage-market
actor: a send error rolls the transition back and propagates; a non-zero
peer exit code rolls it back with `ErrStoragemarketCallFailed`. -/
def commitSector (ctx : Ctx) (st : State) (sectorID : Nat)
    (commD commR commRStar proof : List Nat) : MRes Unit :=
  if ctx.gasOk then
    if commD.length = CommitmentBytesLen then
      if commR.length = CommitmentBytesLen then
        if commRStar.length = CommitmentBytesLen then
          let sectorIDstr := Nat.repr sectorID
          if ctx.msgFrom = st.owner then
            if (alistLookup st.sectorCommitments sectorIDstr).isSome then
              { state := st, ret := none,
                code := CodeError (.coded ErrSectorCommitted),
                err := some (.coded ErrSectorCommitted), sent := false }
            else
              let st1 :=
                if st.power = 0 then
                  { st with provingPeriodStart := some ctx.blockHeight }
                else st
              let comms : Commitments :=
                { commD := copyFixed 32 commD, commR := copyFixed 32 commR,
                  commRStar := copyFixed 32 commRStar }
              let st2 :=
                { st1 with power := st1.power + 1,
                           lastUsedSectorID := sectorID,
                           sectorCommitments :=
                             st1.sectorCommitments ++ [(sectorIDstr, comms)] }
              match ctx.send with
              | .error e =>
                { state := st, ret := none, code := CodeError e,
                  err := some e, sent := true }
              | .ok r =>
                if r = 0 then
                  { state := st2, ret := none, code := 0, err := none,
                    sent := true }
                else
                  { state := st, ret := none,
                    code := CodeError (.coded ErrStoragemarketCallFailed),
                    err := some (.coded ErrStoragemarketCallFailed),
                    sent := true }
          else
            { state := st, ret := none,
              code := CodeError (.coded ErrCallerUnauthorized),
              err := some (.coded ErrCallerUnauthorized), sent := false }
        else
          { state := st, ret := none, code := 0, err := some .revert,
            sent := false }
      else
        { state := st, ret := none, code := 0, err := some .revert,
          sent := false }
    else
      { state := st, ret := none, code := 0, err := some .revert,
        sent := false }
  else
    { state := st, ret := none, code := ErrInsufficientGas,
      err := some .insufficientGas, sent := false }

/-- `SubmitPoSt` submits a coalesced PoSt: charge gas, reject a proof that
is not exactly 192 bytes (before the state callback, code 0 with an
uncoded revert error), check the caller, run the injected verifier over
the stored CommRs (a verifier error becomes a wrapped revert, an invalid
verdict becomes `ErrInvalidPoSt`), then compare the height against
`ProvingPeriodStart + ProvingPeriodBlocks`: on time, slide
`ProvingPeriodStart` to that deadline and record `LastPoSt`; late, revert.
A missing `ProvingPeriodStart` would make the Go code dereference a nil
pointer; that branch is modelled as a fault. -/
def submitPoSt (ctx : Ctx) (st : State) (proof : List Nat) : MRes Unit :=
  if ctx.gasOk then
    if proof.length = PoStProofLength then
      if ctx.msgFrom = st.owner then
        match ctx.verify with
        | .error _ =>
          { state := st, ret := none, code := CodeError .revert,
            err := some .revert, sent := false }
        | .ok valid =>
          if valid then
            match st.provingPeriodStart with
            | none =>
              { state := st, ret := none, code := CodeError .fault,
                err := some .fault, sent := false }
            | some s =>
              let provingPeriodEnd := s + ProvingPeriodBlocks
              if ctx.blockHeight ≤ provingPeriodEnd then
                { state := { st with provingPeriodStart := some provingPeriodEnd,
                                     lastPoSt := some ctx.blockHeight }
                  ret := none, code := 0, err := none, sent := false }
              else
                { state := st, ret := none, code := CodeError .revert,
                  err := some .revert, sent := false }
          else
            { state := st, ret := none,
              code := CodeError (.coded ErrInvalidPoSt),
              err := some (.coded ErrInvalidPoSt), sent := false }
      else
        { state := st, ret := none,
          code := CodeError (.coded ErrCallerUnauthorized),
          err := some (.coded ErrCallerUnauthorized), sent := false }
    else
      { state := st, ret := none, code := 0, err := some .revert,
        sent := false }
  else
    { state := st, ret := none, code := ErrInsufficientGas,
      err := some .insufficientGas, sent := false }

/-- Modelled from the spec: the deterministic canonical serialization used
by the VM storage layer (`cbor.DumpObject` from go-ipld-cbor, outside the
actor source).  A nil ask serializes to CBOR null (the byte 0xf6 = 246);
an ask serializes to a tagged flat encoding of its three fields.  Only
determinism and the nil/non-nil distinction matter to the actor. -/
def cborAskOpt : Option Ask → List Int
  | none => [246]
  | some a => [1, a.price, Int.ofNat a.expiry, a.id]

/-- `GetAsk` returns a serialized representation of the first stored ask
whose `ID` equals `askid` (a Go-loop first match), or of nil when none
matches; the state callback mutates nothing. -/
def getAsk (ctx : Ctx) (st : State) (askid : Int) : MRes (List Int) :=
  if ctx.gasOk then
    { state := st
      ret := some (cborAskOpt (st.asks.find? (fun a => a.id = askid)))
      code := 0, err := none, sent := false }
  else
    { state := st, ret := none, code := ErrInsufficientGas,
      err := some .insufficientGas, sent := false }

end Miner

namespace Miner

theorem copyFixed_of_length (src : List Nat) (h : src.length = 32) :
    copyFixed 32 src = src := by
  unfold copyFixed
  rw [h, Nat.sub_self, List.replicate_zero, List.append_nil,
    List.take_of_length_le (by omega)]

theorem alistLookup_append_self (l : List (String × Commitments))
    (k : String) (c : Commitments) (h : alistLookup l k = none) :
    alistLookup (l ++ [(k, c)]) k = some c := by
  unfold alistLookup at h ⊢
  rw [List.find?_append]
  cases hf : l.find? (fun p => p.1 = k) with
  | none => simp [hf]
  | some p => rw [hf] at h; simp at h

/-- C1: with `proving_period_start = S`, an owner-sent `submitPoSt` with a
192-byte proof the verifier accepts succeeds when
`current_height ≤ S + ProvingPeriodBlocks`, sliding `proving_period_start`
to exactly `S + ProvingPeriodBlocks` (not to the current height) and
setting `last_post` to the current height; when
`current_height > S + ProvingPeriodBlocks` it reverts, leaving
`proving_period_start` and `last_post` unchanged. -/
theorem submitPoSt_timing (ctx : Ctx) (st : State) (S : Nat)
    (proof : List Nat) (hg : ctx.gasOk = true)
    (hp : st.provingPeriodStart = some S) (hf : ctx.msgFrom = st.owner)
    (hl : proof.length = PoStProofLength) (hv : ctx.verify = .ok true) :
    (ctx.blockHeight ≤ S + ProvingPeriodBlocks →
      submitPoSt ctx st proof =
        { state := { st with provingPeriodStart := some (S + ProvingPeriodBlocks),
                             lastPoSt := some ctx.blockHeight },
          ret := none, code := 0, err := none, sent := false }) ∧
    (S + ProvingPeriodBlocks < ctx.blockHeight →
      (submitPoSt ctx st proof).state = st ∧
      (submitPoSt ctx st proof).err = some .revert ∧
      (submitPoSt ctx st proof).state.provingPeriodStart = some S ∧
      (submitPoSt ctx st proof).state.lastPoSt = st.lastPoSt) := by
  constructor
  · intro h
    simp only [submitPoSt, hg, hl, hf, hv, hp, if_true, if_pos h]
  · intro h
    simp only [submitPoSt, hg, hl, hf, hv, hp, if_true,
      if_neg (Nat.not_le.mpr h)]
    exact ⟨trivial, trivial, trivial, trivial⟩

/-- C1 witness: a concrete on-time submission at height 5000 from a state
whose proving period started at 1000. -/
theorem submitPoSt_timing_witness :
    submitPoSt
      { msgFrom := 7, blockHeight := 5000, gasOk := true,
        send := .ok 0, verify := .ok true }
      { NewState 7 [] 0 "pid" 0 with provingPeriodStart := some 1000 }
      (List.replicate 192 0) =
      { state := { NewState 7 [] 0 "pid" 0 with
                     provingPeriodStart := some 21000,
                     lastPoSt := some 5000 },
        ret := none, code := 0, err := none, sent := false } :=
  (submitPoSt_timing
      { msgFrom := 7, blockHeight := 5000, gasOk := true,
        send := .ok 0, verify := .ok true }
      { NewState 7 [] 0 "pid" 0 with provingPeriodStart := some 1000 }
      1000 (List.replicate 192 0) rfl rfl rfl (by rw [List.length_replicate]; rfl) rfl).1
    (by decide)

end Miner

namespace Miner

theorem commitSector_eq_of_success (ctx : Ctx) (st : State) (sectorID : Nat)
    (commD commR commRStar proof : List Nat)
    (hg : ctx.gasOk = true) (hf : ctx.msgFrom = st.owner)
    (hd : commD.length = CommitmentBytesLen)
    (hr : commR.length = CommitmentBytesLen)
    (hs : commRStar.length = CommitmentBytesLen)
    (hfresh : alistLookup st.sectorCommitments (Nat.repr sectorID) = none)
    (hsend : ctx.send = .ok 0) :
    commitSector ctx st sectorID commD commR commRStar proof =
      { state := { st with
          provingPeriodStart :=
            if st.power = 0 then some ctx.blockHeight
            else st.provingPeriodStart,
          power := st.power + 1,
          lastUsedSectorID := sectorID,
          sectorCommitments := st.sectorCommitments ++
            [(Nat.repr sectorID,
              { commD := commD, commR := commR, commRStar := commRStar })] },
        ret := none, code := 0, err := none, sent := true } := by
  have hd32 : commD.length = 32 := hd
  have hr32 : commR.length = 32 := hr
  have hs32 : commRStar.length = 32 := hs
  simp only [commitSector, hg, hd, hr, hs, hf, hfresh, hsend, if_true,
    Option.isSome_none, Bool.false_eq_true, if_false,
    copyFixed_of_length _ hd32, copyFixed_of_length _ hr32,
    copyFixed_of_length _ hs32]
  by_cases hp0 : st.power = 0 <;> simp [hp0]

theorem commitSector_eq_of_send_error (ctx : Ctx) (st : State)
    (sectorID : Nat) (commD commR commRStar proof : List Nat) (e : MErr)
    (hg : ctx.gasOk = true) (hf : ctx.msgFrom = st.owner)
    (hd : commD.length = CommitmentBytesLen)
    (hr : commR.length = CommitmentBytesLen)
    (hs : commRStar.length = CommitmentBytesLen)
    (hfresh : alistLookup st.sectorCommitments (Nat.repr sectorID) = none)
    (hsend : ctx.send = .error e) :
    commitSector ctx st sectorID commD commR commRStar proof =
      { state := st, ret := none, code := CodeError e, err := some e,
        sent := true } := by
  simp only [commitSector, hg, hd, hr, hs, hf, hfresh, hsend, if_true,
    Option.isSome_none, Bool.false_eq_true, if_false]

theorem commitSector_eq_of_bad_exit (ctx : Ctx) (st : State)
    (sectorID : Nat) (commD commR commRStar proof : List Nat) (r : Nat)
    (hg : ctx.gasOk = true) (hf : ctx.msgFrom = st.owner)
    (hd : commD.length = CommitmentBytesLen)
    (hr : commR.length = CommitmentBytesLen)
    (hs : commRStar.length = CommitmentBytesLen)
    (hfresh : alistLookup st.sectorCommitments (Nat.repr sectorID) = none)
    (hsend : ctx.send = .ok r) (hr0 : r ≠ 0) :
    commitSector ctx st sectorID commD commR commRStar proof =
      { state := st, ret := none,
        code := CodeError (.coded ErrStoragemarketCallFailed),
        err := some (.coded ErrStoragemarketCallFailed), sent := true } := by
  simp only [commitSector, hg, hd, hr, hs, hf, hfresh, hsend, if_true,
    Option.isSome_none, Bool.false_eq_true, if_false, if_neg hr0]

/-- C2: a successful owner-sent `commitSector` on a not-yet-present sector
with 32-byte commitments exits with code 0, increments `power` by 1,
records the commitment tuple under the sector id, sets
`last_used_sector_id` to the sector id, and, when `power` was 0 before the
call, sets `proving_period_start` to the current height. -/
theorem commitSector_success (ctx : Ctx) (st : State) (sectorID : Nat)
    (commD commR commRStar proof : List Nat)
    (hg : ctx.gasOk = true) (hf : ctx.msgFrom = st.owner)
    (hd : commD.length = CommitmentBytesLen)
    (hr : commR.length = CommitmentBytesLen)
    (hs : commRStar.length = CommitmentBytesLen)
    (hfresh : alistLookup st.sectorCommitments (Nat.repr sectorID) = none)
    (hok : (commitSector ctx st sectorID commD commR commRStar proof).err
      = none) :
    (commitSector ctx st sectorID commD commR commRStar proof).exit = 0 ∧
    (commitSector ctx st sectorID commD commR commRStar proof).state.power
      = st.power + 1 ∧
    alistLookup
      (commitSector ctx st sectorID commD commR commRStar
        proof).state.sectorCommitments (Nat.repr sectorID) =
      some { commD := commD, commR := commR, commRStar := commRStar } ∧
    (commitSector ctx st sectorID commD commR commRStar
      proof).state.lastUsedSectorID = sectorID ∧
    (st.power = 0 →
      (commitSector ctx st sectorID commD commR commRStar
        proof).state.provingPeriodStart = some ctx.blockHeight) := by
  rcases hsend : ctx.send with e | r
  · rw [commitSector_eq_of_send_error ctx st sectorID commD commR commRStar
      proof e hg hf hd hr hs hfresh hsend] at hok
    simp at hok
  · by_cases hr0 : r = 0
    · subst hr0
      rw [commitSector_eq_of_success ctx st sectorID commD commR commRStar
        proof hg hf hd hr hs hfresh hsend]
      refine ⟨rfl, rfl, ?_, rfl, ?_⟩
      · exact alistLookup_append_self _ _ _ hfresh
      · intro hp0
        simp [hp0]
    · rw [commitSector_eq_of_bad_exit ctx st sectorID commD commR commRStar
        proof r hg hf hd hr hs hfresh hsend hr0] at hok
      simp at hok

/-- C2 witness: a concrete first commit at height 1000 on a fresh miner. -/
theorem commitSector_success_witness :
    (commitSector
      { msgFrom := 7, blockHeight := 1000, gasOk := true,
        send := .ok 0, verify := .ok true }
      (NewState 7 [] 0 "pid" 0) 1 (List.replicate 32 0)
      (List.replicate 32 1) (List.replicate 32 2)
      (List.replicate 192 0)).exit = 0 ∧
    (commitSector
      { msgFrom := 7, blockHeight := 1000, gasOk := true,
        send := .ok 0, verify := .ok true }
      (NewState 7 [] 0 "pid" 0) 1 (List.replicate 32 0)
      (List.replicate 32 1) (List.replicate 32 2)
      (List.replicate 192 0)).state.power = 0 + 1 ∧
    alistLookup
      (commitSector
        { msgFrom := 7, blockHeight := 1000, gasOk := true,
          send := .ok 0, verify := .ok true }
        (NewState 7 [] 0 "pid" 0) 1 (List.replicate 32 0)
        (List.replicate 32 1) (List.replicate 32 2)
        (List.replicate 192 0)).state.sectorCommitments (Nat.repr 1) =
      some { commD := List.replicate 32 0, commR := List.replicate 32 1,
             commRStar := List.replicate 32 2 } ∧
    (commitSector
      { msgFrom := 7, blockHeight := 1000, gasOk := true,
        send := .ok 0, verify := .ok true }
      (NewState 7 [] 0 "pid" 0) 1 (List.replicate 32 0)
      (List.replicate 32 1) (List.replicate 32 2)
      (List.replicate 192 0)).state.lastUsedSectorID = 1 ∧
    ((0 : Int) = 0 →
      (commitSector
        { msgFrom := 7, blockHeight := 1000, gasOk := true,
          send := .ok 0, verify := .ok true }
        (NewState 7 [] 0 "pid" 0) 1 (List.replicate 32 0)
        (List.replicate 32 1) (List.replicate 32 2)
        (List.replicate 192 0)).state.provingPeriodStart = some 1000) :=
  commitSector_success
    { msgFrom := 7, blockHeight := 1000, gasOk := true,
      send := .ok 0, verify := .ok true }
    (NewState 7 [] 0 "pid" 0) 1 (List.replicate 32 0)
    (List.replicate 32 1) (List.replicate 32 2) (List.replicate 192 0)
    rfl rfl (by rw [List.length_replicate]; rfl) (by rw [List.length_replicate]; rfl)
    (by rw [List.length_replicate]; rfl) rfl (by decide)

end Miner

namespace Miner

/-- C3 counterexample: the byte-length preludes of `commitSector` run
before the authorization check, so a non-owner call with a 31-byte `commD`
exits with the generic revert code 1, not with `ErrCallerUnauthorized`
(37), refuting the claim that every non-owner call of a mutating method
returns code 37. -/
theorem unauthorized_always_37_counterexample :
    (2 : Nat) ≠ (NewState 1 [] 0 "pid" 0).owner ∧
    (commitSector
      { msgFrom := 2, blockHeight := 10, gasOk := true, send := .ok 0,
        verify := .ok true }
      (NewState 1 [] 0 "pid" 0) 5 (List.replicate 31 0)
      (List.replicate 32 0) (List.replicate 32 0) []).exit = 1 := by
  decide

/-- C3 (amended): for every state and every mutating method, a call that
passes the gas charge and the argument byte-length preludes (32-byte
commitments for `commitSector`, a 192-byte proof for `submitPoSt`) and
whose sender differs from `state.owner` returns exit code 37
(`ErrCallerUnauthorized`) and leaves the entire state unchanged. -/
theorem mutators_unauthorized (ctx : Ctx) (st : State) (price expiry : Int)
    (pid : String) (sectorID : Nat)
    (commD commR commRStar proofC proofP : List Nat)
    (hg : ctx.gasOk = true) (hne : ctx.msgFrom ≠ st.owner) :
    ((addAsk ctx st price expiry).state = st ∧
      (addAsk ctx st price expiry).exit = ErrCallerUnauthorized) ∧
    ((updatePeerID ctx st pid).state = st ∧
      (updatePeerID ctx st pid).exit = ErrCallerUnauthorized) ∧
    (commD.length = CommitmentBytesLen →
      commR.length = CommitmentBytesLen →
      commRStar.length = CommitmentBytesLen →
      (commitSector ctx st sectorID commD commR commRStar proofC).state
          = st ∧
      (commitSector ctx st sectorID commD commR commRStar proofC).exit
          = ErrCallerUnauthorized) ∧
    (proofP.length = PoStProofLength →
      (submitPoSt ctx st proofP).state = st ∧
      (submitPoSt ctx st proofP).exit = ErrCallerUnauthorized) := by
  refine ⟨?_, ?_, ?_, ?_⟩
  · simp only [addAsk, hg, if_true, if_neg hne]
    exact ⟨trivial, rfl⟩
  · simp only [updatePeerID, hg, if_true, if_neg hne]
    exact ⟨trivial, rfl⟩
  · intro hd hr hs
    simp only [commitSector, hg, hd, hr, hs, if_true, if_neg hne]
    exact ⟨trivial, rfl⟩
  · intro hl
    simp only [submitPoSt, hg, hl, if_true, if_neg hne]
    exact ⟨trivial, rfl⟩

/-- C3 witness: a concrete non-owner `addAsk` is rejected with code 37 and
no state change. -/
theorem mutators_unauthorized_witness :
    (addAsk
      { msgFrom := 2, blockHeight := 10, gasOk := true, send := .ok 0,
        verify := .ok true }
      (NewState 1 [] 0 "pid" 0) 5 100).state = NewState 1 [] 0 "pid" 0 ∧
    (addAsk
      { msgFrom := 2, blockHeight := 10, gasOk := true, send := .ok 0,
        verify := .ok true }
      (NewState 1 [] 0 "pid" 0) 5 100).exit = ErrCallerUnauthorized :=
  (mutators_unauthorized
    { msgFrom := 2, blockHeight := 10, gasOk := true, send := .ok 0,
      verify := .ok true }
    (NewState 1 [] 0 "pid" 0) 5 100 "q" 1 [] [] [] [] []
    rfl (by decide)).1

/-- C4: a `commitSector` whose `commD`, `commR` or `commRStar` is not
exactly 32 bytes, and a `submitPoSt` whose proof is not exactly 192 bytes,
fail with an uncoded revert whose observed exit code is the generic code
1, with no state change and no storage-market send. -/
theorem size_checks_revert (ctx : Ctx) (st : State) (sectorID : Nat)
    (commD commR commRStar proofC proofP : List Nat)
    (hg : ctx.gasOk = true) :
    (commD.length ≠ CommitmentBytesLen ∨
        commR.length ≠ CommitmentBytesLen ∨
        commRStar.length ≠ CommitmentBytesLen →
      commitSector ctx st sectorID commD commR commRStar proofC =
        { state := st, ret := none, code := 0, err := some .revert,
          sent := false } ∧
      (commitSector ctx st sectorID commD commR commRStar proofC).exit
        = 1) ∧
    (proofP.length ≠ PoStProofLength →
      submitPoSt ctx st proofP =
        { state := st, ret := none, code := 0, err := some .revert,
          sent := false } ∧
      (submitPoSt ctx st proofP).exit = 1) := by
  constructor
  · intro h
    have hres : commitSector ctx st sectorID commD commR commRStar proofC =
        { state := st, ret := none, code := 0, err := some .revert,
          sent := false } := by
      by_cases hd : commD.length = CommitmentBytesLen
      · by_cases hrr : commR.length = CommitmentBytesLen
        · have hss : commRStar.length ≠ CommitmentBytesLen := by tauto
          simp only [commitSector, hg, hd, hrr, if_true, if_neg hss]
        · simp only [commitSector, hg, hd, if_true, if_neg hrr]
      · simp only [commitSector, hg, if_true, if_neg hd]
    exact ⟨hres, by rw [hres]; rfl⟩
  · intro hl
    have hres : submitPoSt ctx st proofP =
        { state := st, ret := none, code := 0, err := some .revert,
          sent := false } := by
      simp only [submitPoSt, hg, if_true, if_neg hl]
    exact ⟨hres, by rw [hres]; rfl⟩

/-- C4 witness: a concrete owner-sent `commitSector` with a 31-byte
`commD` reverts with exit code 1, untouched state and no send. -/
theorem size_checks_revert_witness :
    commitSector
      { msgFrom := 1, blockHeight := 10, gasOk := true, send := .ok 0,
        verify := .ok true }
      (NewState 1 [] 0 "pid" 0) 2 (List.replicate 31 0)
      (List.replicate 32 0) (List.replicate 32 0) [] =
      { state := NewState 1 [] 0 "pid" 0, ret := none, code := 0,
        err := some .revert, sent := false } ∧
    (commitSector
      { msgFrom := 1, blockHeight := 10, gasOk := true, send := .ok 0,
        verify := .ok true }
      (NewState 1 [] 0 "pid" 0) 2 (List.replicate 31 0)
      (List.replicate 32 0) (List.replicate 32 0) []).exit = 1 :=
  (size_checks_revert
    { msgFrom := 1, blockHeight := 10, gasOk := true, send := .ok 0,
      verify := .ok true }
    (NewState 1 [] 0 "pid" 0) 2 (List.replicate 31 0)
    (List.replicate 32 0) (List.replicate 32 0) [] []
    rfl).1 (Or.inl (by decide))

/-- C5: an owner-sent `commitSector` with 32-byte commitments on a sector
id already present in `sector_commitments` returns exit code 35
(`ErrSectorCommitted`), leaves the state unchanged and issues no
storage-market send. -/
theorem commitSector_duplicate (ctx : Ctx) (st : State) (sectorID : Nat)
    (commD commR commRStar proofC : List Nat)
    (hg : ctx.gasOk = true) (hf : ctx.msgFrom = st.owner)
    (hd : commD.length = CommitmentBytesLen)
    (hr : commR.length = CommitmentBytesLen)
    (hs : commRStar.length = CommitmentBytesLen)
    (hdup : (alistLookup st.sectorCommitments (Nat.repr sectorID)).isSome
      = true) :
    commitSector ctx st sectorID commD commR commRStar proofC =
      { state := st, ret := none,
        code := CodeError (.coded ErrSectorCommitted),
        err := some (.coded ErrSectorCommitted), sent := false } ∧
    (commitSector ctx st sectorID commD commR commRStar proofC).exit
      = ErrSectorCommitted := by
  have hres : commitSector ctx st sectorID commD commR commRStar proofC =
      { state := st, ret := none,
        code := CodeError (.coded ErrSectorCommitted),
        err := some (.coded ErrSectorCommitted), sent := false } := by
    simp only [commitSector, hg, hd, hr, hs, hf, hdup, if_true]
  exact ⟨hres, by rw [hres]; rfl⟩

/-- C5 witness: recommitting sector 1 on a state that already holds a
commitment for it exits with code 35 and an unchanged state. -/
theorem commitSector_duplicate_witness :
    commitSector
      { msgFrom := 1, blockHeight := 10, gasOk := true, send := .ok 0,
        verify := .ok true }
      { NewState 1 [] 0 "pid" 0 with
          sectorCommitments :=
            [("1", { commD := List.replicate 32 0,
                     commR := List.replicate 32 0,
                     commRStar := List.replicate 32 0 })],
          power := 1 }
      1 (List.replicate 32 0) (List.replicate 32 0)
      (List.replicate 32 0) [] =
      { state := { NewState 1 [] 0 "pid" 0 with
          sectorCommitments :=
            [("1", { commD := List.replicate 32 0,
                     commR := List.replicate 32 0,
                     commRStar := List.replicate 32 0 })],
          power := 1 },
        ret := none, code := CodeError (.coded ErrSectorCommitted),
        err := some (.coded ErrSectorCommitted), sent := false } ∧
    (commitSector
      { msgFrom := 1, blockHeight := 10, gasOk := true, send := .ok 0,
        verify := .ok true }
      { NewState 1 [] 0 "pid" 0 with
          sectorCommitments :=
            [("1", { commD := List.replicate 32 0,
                     commR := List.replicate 32 0,
                     commRStar := List.replicate 32 0 })],
          power := 1 }
      1 (List.replicate 32 0) (List.replicate 32 0)
      (List.replicate 32 0) []).exit = ErrSectorCommitted :=
  commitSector_duplicate
    { msgFrom := 1, blockHeight := 10, gasOk := true, send := .ok 0,
      verify := .ok true }
    { NewState 1 [] 0 "pid" 0 with
        sectorCommitments :=
          [("1", { commD := List.replicate 32 0,
                   commR := List.replicate 32 0,
                   commRStar := List.replicate 32 0 })],
        power := 1 }
    1 (List.replicate 32 0) (List.replicate 32 0) (List.replicate 32 0) []
    rfl rfl (by rw [List.length_replicate]; rfl)
    (by rw [List.length_replicate]; rfl)
    (by rw [List.length_replicate]; rfl) (by decide)

end Miner

namespace Miner

theorem commitSector_state_cases (ctx : Ctx) (st : State) (sectorID : Nat)
    (commD commR commRStar proofC : List Nat) :
    (commitSector ctx st sectorID commD commR commRStar proofC).state = st ∨
    ((commitSector ctx st sectorID commD commR commRStar
        proofC).state.power = st.power + 1 ∧
      (commitSector ctx st sectorID commD commR commRStar
        proofC).state.sectorCommitments.length
        = st.sectorCommitments.length + 1) := by
  by_cases hg : ctx.gasOk = true
  · by_cases hd : commD.length = CommitmentBytesLen
    · by_cases hrr : commR.length = CommitmentBytesLen
      · by_cases hss : commRStar.length = CommitmentBytesLen
        · by_cases hf : ctx.msgFrom = st.owner
          · by_cases hdup :
              (alistLookup st.sectorCommitments (Nat.repr sectorID)).isSome
                = true
            · left
              rw [(commitSector_duplicate ctx st sectorID commD commR
                commRStar proofC hg hf hd hrr hss hdup).1]
            · have hfresh :
                  alistLookup st.sectorCommitments (Nat.repr sectorID)
                    = none := by
                cases h : alistLookup st.sectorCommitments (Nat.repr sectorID)
                · rfl
                · rw [h] at hdup
                  simp at hdup
              rcases hsend : ctx.send with e | r
              · left
                rw [commitSector_eq_of_send_error ctx st sectorID commD
                  commR commRStar proofC e hg hf hd hrr hss hfresh hsend]
              · by_cases hr0 : r = 0
                · subst hr0
                  right
                  rw [commitSector_eq_of_success ctx st sectorID commD
                    commR commRStar proofC hg hf hd hrr hss hfresh hsend]
                  constructor
                  · rfl
                  · simp
                · left
                  rw [commitSector_eq_of_bad_exit ctx st sectorID commD
                    commR commRStar proofC r hg hf hd hrr hss hfresh hsend
                    hr0]
          · left
            simp only [commitSector, hg, hd, hrr, hss, if_true,
              if_neg hf]
        · left
          simp only [commitSector, hg, hd, hrr, if_true, if_neg hss]
      · left
        simp only [commitSector, hg, hd, if_true, if_neg hrr]
    · left
      simp only [commitSector, hg, if_true, if_neg hd]
  · left
    simp only [commitSector, if_neg hg]

/-- One `commitSector` invocation in a replayed call sequence: the context
it runs under and its arguments. -/
structure CommitCall where
  ctx : Ctx
  sectorID : Nat
  commD : List Nat
  commR : List Nat
  commRStar : List Nat
  proof : List Nat

/-- Replay a sequence of `commitSector` calls, threading the committed
state (a failed call leaves the state unchanged — `WithState`
rollback). -/
def runCommits (st : State) : List CommitCall → State
  | [] => st
  | c :: rest =>
    runCommits
      (commitSector c.ctx st c.sectorID c.commD c.commR c.commRStar
        c.proof).state rest

/-- Whether every call in a replayed `commitSector` sequence succeeds. -/
def runCommitsOk (st : State) : List CommitCall → Bool
  | [] => true
  | c :: rest =>
    (commitSector c.ctx st c.sectorID c.commD c.commR c.commRStar
        c.proof).err.isNone &&
      runCommitsOk
        (commitSector c.ctx st c.sectorID c.commD c.commR c.commRStar
          c.proof).state rest

theorem runCommits_power_eq_count (calls : List CommitCall) (st : State)
    (h : st.power = (st.sectorCommitments.length : Int)) :
    (runCommits st calls).power
      = ((runCommits st calls).sectorCommitments.length : Int) := by
  induction calls generalizing st with
  | nil => exact h
  | cons c rest ih =>
    unfold runCommits
    apply ih
    rcases commitSector_state_cases c.ctx st c.sectorID c.commD c.commR
      c.commRStar c.proof with hcase | ⟨hp, hsc⟩
    · rw [hcase]
      exact h
    · rw [hp, hsc, h]
      push_cast
      ring

/-- C6: after any sequence of successful `commitSector` calls starting
from the initial state, `power` equals the number of entries of
`sector_commitments`. -/
theorem power_eq_sector_count (owner : Nat) (key : List Nat) (pledge : Int)
    (pid : String) (collateral : Int) (calls : List CommitCall)
    (hok : runCommitsOk (NewState owner key pledge pid collateral) calls
      = true) :
    (runCommits (NewState owner key pledge pid collateral) calls).power
      = ((runCommits (NewState owner key pledge pid collateral)
          calls).sectorCommitments.length : Int) :=
  runCommits_power_eq_count calls _ (by simp [NewState])

/-- C6 witness: two successful commits (sectors 1 and 2) on a fresh miner
leave `power` equal to the commitment count. -/
theorem power_eq_sector_count_witness :
    (runCommits (NewState 7 [] 0 "pid" 0)
      [{ ctx := { msgFrom := 7, blockHeight := 1000, gasOk := true,
                  send := .ok 0, verify := .ok true },
         sectorID := 1, commD := List.replicate 32 0,
         commR := List.replicate 32 0, commRStar := List.replicate 32 0,
         proof := [] },
       { ctx := { msgFrom := 7, blockHeight := 1001, gasOk := true,
                  send := .ok 0, verify := .ok true },
         sectorID := 2, commD := List.replicate 32 0,
         commR := List.replicate 32 0, commRStar := List.replicate 32 0,
         proof := [] }]).power
      = ((runCommits (NewState 7 [] 0 "pid" 0)
          [{ ctx := { msgFrom := 7, blockHeight := 1000, gasOk := true,
                      send := .ok 0, verify := .ok true },
             sectorID := 1, commD := List.replicate 32 0,
             commR := List.replicate 32 0,
             commRStar := List.replicate 32 0, proof := [] },
           { ctx := { msgFrom := 7, blockHeight := 1001, gasOk := true,
                      send := .ok 0, verify := .ok true },
             sectorID := 2, commD := List.replicate 32 0,
             commR := List.replicate 32 0,
             commRStar := List.replicate 32 0,
             proof := [] }]).sectorCommitments.length : Int) :=
  power_eq_sector_count 7 [] 0 "pid" 0 _ (by decide)

end Miner

namespace Miner

theorem addAsk_success_id (ctx : Ctx) (st : State) (price expiry : Int)
    (hok : (addAsk ctx st price expiry).err = none) :
    (addAsk ctx st price expiry).ret = some st.nextAskID ∧
    (addAsk ctx st price expiry).state.nextAskID = st.nextAskID + 1 := by
  by_cases hg : ctx.gasOk = true
  · by_cases hf : ctx.msgFrom = st.owner
    · by_cases he : 0 ≤ expiry ∧ expiry < 2 ^ 64
      · simp only [addAsk, hg, hf, if_true, if_pos he]
        refine ⟨by trivial, by trivial⟩
      · simp only [addAsk, hg, hf, if_true, if_neg he] at hok
        simp at hok
    · simp only [addAsk, hg, if_true, if_neg hf] at hok
      simp at hok
  · simp only [addAsk, if_neg hg] at hok
    simp at hok

/-- One `addAsk` invocation in a replayed call sequence. -/
structure AskCall where
  ctx : Ctx
  price : Int
  expiry : Int

/-- Replay a sequence of `addAsk` calls, threading the committed state and
collecting the ids the successful calls return. -/
def runAsks (st : State) : List AskCall → State × List Int
  | [] => (st, [])
  | c :: rest =>
    match (addAsk c.ctx st c.price c.expiry).ret with
    | some i =>
      ((runAsks (addAsk c.ctx st c.price c.expiry).state rest).1,
       i :: (runAsks (addAsk c.ctx st c.price c.expiry).state rest).2)
    | none => runAsks (addAsk c.ctx st c.price c.expiry).state rest

/-- Whether every call in a replayed `addAsk` sequence succeeds. -/
def runAsksOk (st : State) : List AskCall → Bool
  | [] => true
  | c :: rest =>
    (addAsk c.ctx st c.price c.expiry).err.isNone &&
      runAsksOk (addAsk c.ctx st c.price c.expiry).state rest

theorem runAsks_ids (calls : List AskCall) (st : State)
    (hok : runAsksOk st calls = true) :
    (runAsks st calls).2
      = (List.range calls.length).map (fun i : Nat => st.nextAskID + (i : Int)) := by
  induction calls generalizing st with
  | nil => rfl
  | cons c rest ih =>
    unfold runAsksOk at hok
    rw [Bool.and_eq_true] at hok
    obtain ⟨h1, h2⟩ := hok
    rw [Option.isNone_iff_eq_none] at h1
    obtain ⟨hret, hnext⟩ := addAsk_success_id c.ctx st c.price c.expiry h1
    unfold runAsks
    rw [hret]
    simp only [List.length_cons]
    rw [ih _ h2, hnext, List.range_succ_eq_map, List.map_cons,
      List.map_map]
    simp only [Nat.cast_zero, add_zero]
    congr 1
    have hfun : (fun i : Nat => st.nextAskID + 1 + (i : Int))
        = ((fun i : Nat => st.nextAskID + (i : Int)) ∘ Nat.succ) := by
      funext i
      simp only [Function.comp_apply]
      push_cast
      ring
    rw [hfun]

/-- C7: across any sequence of successful `addAsk` calls starting from the
initial state, the returned ids are `0, 1, 2, …` without gaps or repeats;
moreover every successful `addAsk` returns the pre-call `next_ask_id` and
increments `next_ask_id` by exactly 1. -/
theorem ask_ids_monotone (owner : Nat) (key : List Nat) (pledge : Int)
    (pid : String) (collateral : Int) (calls : List AskCall)
    (hok : runAsksOk (NewState owner key pledge pid collateral) calls
      = true) :
    (runAsks (NewState owner key pledge pid collateral) calls).2
      = (List.range calls.length).map (fun i : Nat => (i : Int)) ∧
    ∀ (ctx : Ctx) (st : State) (price expiry : Int),
      (addAsk ctx st price expiry).err = none →
      (addAsk ctx st price expiry).ret = some st.nextAskID ∧
      (addAsk ctx st price expiry).state.nextAskID = st.nextAskID + 1 := by
  constructor
  · rw [runAsks_ids calls _ hok]
    simp [NewState]
  · intro ctx st price expiry h
    exact addAsk_success_id ctx st price expiry h

/-- C7 witness: two successful `addAsk` calls on a fresh miner return ids
0 and 1. -/
theorem ask_ids_monotone_witness :
    (runAsks (NewState 1 [] 0 "pid" 0)
      [{ ctx := { msgFrom := 1, blockHeight := 10, gasOk := true,
                  send := .ok 0, verify := .ok true },
         price := 5, expiry := 100 },
       { ctx := { msgFrom := 1, blockHeight := 50, gasOk := true,
                  send := .ok 0, verify := .ok true },
         price := 7, expiry := 50 }]).2
      = (List.range 2).map (fun i : Nat => (i : Int)) :=
  (ask_ids_monotone 1 [] 0 "pid" 0
    [{ ctx := { msgFrom := 1, blockHeight := 10, gasOk := true,
                send := .ok 0, verify := .ok true },
       price := 5, expiry := 100 },
     { ctx := { msgFrom := 1, blockHeight := 50, gasOk := true,
                send := .ok 0, verify := .ok true },
       price := 7, expiry := 50 }] (by decide)).1

/-- C8 counterexample: an owner-sent `addAsk` with `expiry_delta = 0` at
height 10 succeeds (0 fits `uint64`) and stores the new ask with expiry
exactly 10, so it is false that afterwards every stored ask has expiry
strictly above the current height. -/
theorem addAsk_strict_expiry_counterexample :
    (addAsk
      { msgFrom := 1, blockHeight := 10, gasOk := true, send := .ok 0,
        verify := .ok true }
      (NewState 1 [] 0 "pid" 0) 5 0).err = none ∧
    ¬ (∀ a ∈ (addAsk
        { msgFrom := 1, blockHeight := 10, gasOk := true, send := .ok 0,
          verify := .ok true }
        (NewState 1 [] 0 "pid" 0) 5 0).state.asks, 10 < a.expiry) := by
  decide

/-- C8 (amended): for every state and every successful owner-sent
`addAsk(price, expiry_delta)` at height `H` with `expiry_delta` fitting
`uint64` and `expiry_delta ≥ 1`: afterwards every stored ask has expiry
strictly above `H` (asks with expiry equal to `H` are removed), the
surviving pre-existing asks keep their relative order, and the new ask is
appended last with expiry `H + expiry_delta`. -/
theorem addAsk_prune_append (ctx : Ctx) (st : State) (price expiry : Int)
    (hg : ctx.gasOk = true) (hf : ctx.msgFrom = st.owner)
    (he : 0 ≤ expiry ∧ expiry < 2 ^ 64) (h1 : 1 ≤ expiry) :
    (addAsk ctx st price expiry).err = none ∧
    (addAsk ctx st price expiry).state.asks
      = st.asks.filter (fun a => ctx.blockHeight < a.expiry) ++
        [{ price := price, expiry := ctx.blockHeight + expiry.toNat,
           id := st.nextAskID }] ∧
    ∀ a ∈ (addAsk ctx st price expiry).state.asks,
      ctx.blockHeight < a.expiry := by
  have hres : addAsk ctx st price expiry =
      { state := { st with
          nextAskID := st.nextAskID + 1,
          asks := st.asks.filter (fun a => ctx.blockHeight < a.expiry) ++
            [{ price := price, expiry := ctx.blockHeight + expiry.toNat,
               id := st.nextAskID }] },
        ret := some st.nextAskID, code := 0, err := none,
        sent := false } := by
    simp only [addAsk, hg, hf, if_true, if_pos he]
  rw [hres]
  refine ⟨rfl, rfl, ?_⟩
  intro a ha
  rcases List.mem_append.mp ha with h | h
  · have := List.mem_filter.mp h
    simpa using this.2
  · rw [List.mem_singleton] at h
    subst h
    have h2 : 1 ≤ expiry.toNat := by omega
    simp only []
    omega

/-- C8 witness: an owner-sent `addAsk(9, 10)` at height 200 on a state
holding two expired asks prunes both and appends the new ask with expiry
210. -/
theorem addAsk_prune_append_witness :
    (addAsk
      { msgFrom := 1, blockHeight := 200, gasOk := true, send := .ok 0,
        verify := .ok true }
      { NewState 1 [] 0 "pid" 0 with
          asks := [{ price := 5, expiry := 110, id := 0 },
                   { price := 7, expiry := 100, id := 1 }],
          nextAskID := 2 } 9 10).err = none ∧
    (addAsk
      { msgFrom := 1, blockHeight := 200, gasOk := true, send := .ok 0,
        verify := .ok true }
      { NewState 1 [] 0 "pid" 0 with
          asks := [{ price := 5, expiry := 110, id := 0 },
                   { price := 7, expiry := 100, id := 1 }],
          nextAskID := 2 } 9 10).state.asks
      = [{ price := 5, expiry := 110, id := 0 },
         { price := 7, expiry := 100, id := 1 }].filter
          (fun a => 200 < a.expiry) ++
        [{ price := 9, expiry := 200 + (10 : Int).toNat, id := 2 }] ∧
    ∀ a ∈ (addAsk
        { msgFrom := 1, blockHeight := 200, gasOk := true, send := .ok 0,
          verify := .ok true }
        { NewState 1 [] 0 "pid" 0 with
            asks := [{ price := 5, expiry := 110, id := 0 },
                     { price := 7, expiry := 100, id := 1 }],
            nextAskID := 2 } 9 10).state.asks, 200 < a.expiry :=
  addAsk_prune_append
    { msgFrom := 1, blockHeight := 200, gasOk := true, send := .ok 0,
      verify := .ok true }
    { NewState 1 [] 0 "pid" 0 with
        asks := [{ price := 5, expiry := 110, id := 0 },
                 { price := 7, expiry := 100, id := 1 }],
        nextAskID := 2 } 9 10 rfl rfl (by decide) (by decide)

end Miner

namespace Miner

/-- C9: an owner-sent `commitSector` that passes the size, authorization
and duplicate checks is rolled back with exit code 36
(`ErrStoragemarketCallFailed`) when the storage-market send completes with
a non-zero exit code, and is rolled back with the send's own error
propagated when the send itself fails. -/
theorem commitSector_market_failure (ctx : Ctx) (st : State)
    (sectorID : Nat) (commD commR commRStar proofC : List Nat)
    (hg : ctx.gasOk = true) (hf : ctx.msgFrom = st.owner)
    (hd : commD.length = CommitmentBytesLen)
    (hr : commR.length = CommitmentBytesLen)
    (hs : commRStar.length = CommitmentBytesLen)
    (hfresh : alistLookup st.sectorCommitments (Nat.repr sectorID)
      = none) :
    (∀ r : Nat, ctx.send = .ok r → r ≠ 0 →
      (commitSector ctx st sectorID commD commR commRStar proofC).state
          = st ∧
      (commitSector ctx st sectorID commD commR commRStar proofC).exit
          = ErrStoragemarketCallFailed) ∧
    (∀ e : MErr, ctx.send = .error e →
      (commitSector ctx st sectorID commD commR commRStar proofC).state
          = st ∧
      (commitSector ctx st sectorID commD commR commRStar proofC).err
          = some e) := by
  constructor
  · intro r hsend hr0
    rw [commitSector_eq_of_bad_exit ctx st sectorID commD commR commRStar
      proofC r hg hf hd hr hs hfresh hsend hr0]
    exact ⟨rfl, rfl⟩
  · intro e hsend
    rw [commitSector_eq_of_send_error ctx st sectorID commD commR
      commRStar proofC e hg hf hd hr hs hfresh hsend]
    exact ⟨rfl, rfl⟩

/-- C9 witness: a concrete commit whose storage-market call returns exit
code 1 is rolled back with exit code 36. -/
theorem commitSector_market_failure_witness :
    (commitSector
      { msgFrom := 7, blockHeight := 1000, gasOk := true, send := .ok 1,
        verify := .ok true }
      (NewState 7 [] 0 "pid" 0) 1 (List.replicate 32 0)
      (List.replicate 32 0) (List.replicate 32 0) []).state
        = NewState 7 [] 0 "pid" 0 ∧
    (commitSector
      { msgFrom := 7, blockHeight := 1000, gasOk := true, send := .ok 1,
        verify := .ok true }
      (NewState 7 [] 0 "pid" 0) 1 (List.replicate 32 0)
      (List.replicate 32 0) (List.replicate 32 0) []).exit
        = ErrStoragemarketCallFailed :=
  (commitSector_market_failure
    { msgFrom := 7, blockHeight := 1000, gasOk := true, send := .ok 1,
      verify := .ok true }
    (NewState 7 [] 0 "pid" 0) 1 (List.replicate 32 0)
    (List.replicate 32 0) (List.replicate 32 0) []
    rfl rfl (by rw [List.length_replicate]; rfl)
    (by rw [List.length_replicate]; rfl)
    (by rw [List.length_replicate]; rfl) rfl).1 1 rfl (by decide)

/-- C10: `getAsk(id)` returns the canonical serialization of the first
stored ask whose `ID` equals `id` (in ask-list order), the canonical
serialization of nil when no stored ask has that id, and never mutates the
state. -/
theorem getAsk_first_match (ctx : Ctx) (st : State) (askid : Int)
    (hg : ctx.gasOk = true) :
    (getAsk ctx st askid).state = st ∧
    (getAsk ctx st askid).ret
      = some (cborAskOpt (st.asks.find? (fun a => a.id = askid))) ∧
    (st.asks.find? (fun a => a.id = askid) = none →
      (getAsk ctx st askid).ret = some (cborAskOpt none)) ∧
    (getAsk ctx st askid).err = none := by
  have hres : getAsk ctx st askid =
      { state := st,
        ret := some (cborAskOpt (st.asks.find? (fun a => a.id = askid))),
        code := 0, err := none, sent := false } := by
    simp only [getAsk, hg, if_true]
  rw [hres]
  exact ⟨rfl, rfl, fun h => by rw [h], rfl⟩

/-- C10 witness: on a state with two asks, `getAsk 1` serializes the ask
with id 1 and `getAsk` keeps the state intact. -/
theorem getAsk_first_match_witness :
    (getAsk
      { msgFrom := 9, blockHeight := 10, gasOk := true, send := .ok 0,
        verify := .ok true }
      { NewState 1 [] 0 "pid" 0 with
          asks := [{ price := 5, expiry := 110, id := 0 },
                   { price := 7, expiry := 100, id := 1 }],
          nextAskID := 2 } 1).state
      = { NewState 1 [] 0 "pid" 0 with
            asks := [{ price := 5, expiry := 110, id := 0 },
                     { price := 7, expiry := 100, id := 1 }],
            nextAskID := 2 } ∧
    (getAsk
      { msgFrom := 9, blockHeight := 10, gasOk := true, send := .ok 0,
        verify := .ok true }
      { NewState 1 [] 0 "pid" 0 with
          asks := [{ price := 5, expiry := 110, id := 0 },
                   { price := 7, expiry := 100, id := 1 }],
          nextAskID := 2 } 1).ret
      = some (cborAskOpt ([{ price := 5, expiry := 110, id := 0 },
          { price := 7, expiry := 100, id := 1 }].find?
            (fun a : Ask => a.id = 1))) :=
  ⟨(getAsk_first_match
      { msgFrom := 9, blockHeight := 10, gasOk := true, send := .ok 0,
        verify := .ok true }
      { NewState 1 [] 0 "pid" 0 with
          asks := [{ price := 5, expiry := 110, id := 0 },
                   { price := 7, expiry := 100, id := 1 }],
          nextAskID := 2 } 1 rfl).1,
   (getAsk_first_match
      { msgFrom := 9, blockHeight := 10, gasOk := true, send := .ok 0,
        verify := .ok true }
      { NewState 1 [] 0 "pid" 0 with
          asks := [{ price := 5, expiry := 110, id := 0 },
                   { price := 7, expiry := 100, id := 1 }],
          nextAskID := 2 } 1 rfl).2.1⟩

end Miner
